import Mathlib

/-!
Shallow embedding of the `OpenRouterApiService` request-lifecycle manager
(an Angular service issuing chat-completion calls to the OpenRouter provider).

The service keeps two process-wide maps keyed by request id: `abortSubjects`
(one rxjs `Subject<void>` per in-flight request, the cancellation registry) and
`requestMetadata` (`{logId, startTime}`, the request metadata store).
`generateText` validates settings, assembles the payload, opens an audit log
entry, registers both maps, and issues the HTTP call piped through
`takeUntil(abortSubject)` and a `tap` whose `next`/`error` callbacks finalize
the audit trail and call `cleanupRequest`.  `abortRequest` logs the abort,
signals the subject and cleans up.

Modelling conventions:
* JS `Map` is an association list with `mapGet`/`mapSet`/`mapDelete`
  (`Map.set` replaces an existing entry; only lookup semantics matter).
* JS `x || d` truthiness fallbacks are `jsOrString`/`jsOrNat` (absent, the
  empty string and `0` are falsy); `x !== undefined ? x : d` is `Option.getD`.
* Timestamps and token counts are `Nat`; sampling parameters are `Rat`.
  `Math.floor(maxTokens / 1.3)` is embedded as `maxTokens * 10 / 13`: the
  double `1.3` exceeds the rational 13/10 by a relative 3.5e-17, which is
  below half an ulp of every quotient, so for every integer token count in
  the representable range the JS double computation agrees with the exact
  rational floor.
* The synchronous prefix of `generateText` (validation, payload assembly,
  `logRequest`, registration of both maps) is `generateTextSync`; it returns
  the thrown error or the admitted request, the new state, and the audit
  calls made.  The `tap` callbacks are `handleNext`/`handleError`.
* The cancellation race is modelled by `RequestExec.active`: once the abort
  subject fires, `takeUntil` completes the downstream subscription, so the
  `tap` callbacks of a later transport settlement never run; a settlement
  also ends the (one-shot) subscription.
-/

namespace OpenRouterApi

/-- JS truthiness fallback `x || d` for an optional string: `undefined` and
`""` are falsy. -/
def jsOrString : Option String → String → String
  | some s, d => if s = "" then d else s
  | none,   d => d

/-- JS truthiness fallback `x || d` for an optional number (here a natural):
`undefined` and `0` are falsy. -/
def jsOrNat : Option Nat → Nat → Nat
  | some n, d => if n = 0 then d else n
  | none,   d => d

/-- `Map.get`: last `set` wins; `none` when absent. -/
def mapGet (m : List (String × α)) (k : String) : Option α :=
  (m.find? (fun p => p.1 == k)).map (fun p => p.2)

/-- `Map.set`: replaces any existing entry for the key. -/
def mapSet (m : List (String × α)) (k : String) (v : α) : List (String × α) :=
  (k, v) :: m.filter (fun p => p.1 != k)

/-- `Map.delete`: removes the entry for the key when present. -/
def mapDelete (m : List (String × α)) (k : String) : List (String × α) :=
  m.filter (fun p => p.1 != k)

/-- Message role in the chat payload (`'system' | 'user' | 'assistant'`). -/
inductive Role
  | system
  | user
  | assistant
deriving DecidableEq

/-- One role-tagged message turn of the `OpenRouterRequest` payload. -/
structure ChatMessage where
  role : Role
  content : String
deriving DecidableEq

/-- The provider-ready payload (`OpenRouterRequest` interface); the optional
fields are `none` when omitted from the JSON body. -/
structure OpenRouterRequest where
  model : String
  messages : List ChatMessage
  max_tokens : Option Nat := none
  temperature : Option Rat := none
  top_p : Option Rat := none
  stream : Option Bool := none
deriving DecidableEq

/-- `message` object of a response choice. -/
structure RespMessage where
  role : String
  content : String
deriving DecidableEq

/-- One candidate completion of the provider response. -/
structure Choice where
  index : Nat
  message : RespMessage
  finish_reason : String
deriving DecidableEq

/-- Token-usage breakdown of the provider response. -/
structure Usage where
  prompt_tokens : Nat
  completion_tokens : Nat
  total_tokens : Nat
deriving DecidableEq

/-- The provider response (`OpenRouterResponse` interface). -/
structure OpenRouterResponse where
  id : String
  object : String
  created : Nat
  model : String
  choices : List Choice
  usage : Usage
deriving DecidableEq

/-- OpenRouter section of the settings snapshot read via
`settingsService.getSettings()`. -/
structure OpenRouterSettings where
  enabled : Bool
  apiKey : String
  model : String
  temperature : Rat
  topP : Rat
deriving DecidableEq

/-- Settings snapshot; the service only reads `settings.openRouter`. -/
structure Settings where
  openRouter : OpenRouterSettings
deriving DecidableEq

/-- An HTTP error as seen by the `tap` error callback: `error.message` is the
generic transport message, `error.error` the parsed response body whose
`message` field is the structured provider message. -/
structure HttpErrorBody where
  message : Option String := none
deriving DecidableEq

/-- The error value delivered to the `tap` error callback. -/
structure HttpError where
  message : Option String := none
  error : Option HttpErrorBody := none
deriving DecidableEq

/-- One call to the external `AIRequestLoggerService` (the audit logger). -/
inductive LogEvent
  | logRequest (logId : String) (endpoint : String) (model : String)
      (wordCount : Nat) (maxTokens : Nat) (prompt : String)
  | logSuccess (logId : String) (content : String) (durationMs : Nat)
  | logError (logId : String) (message : String) (durationMs : Nat)
  | logAborted (logId : String) (durationMs : Nat)
deriving DecidableEq

/-- Entry of the `requestMetadata` map: `{ logId, startTime }`. -/
structure RequestMeta where
  logId : String
  startTime : Nat
deriving DecidableEq

/-- The service's mutable registries: `abortSubjects` (the subject carries no
data, so its value type is `Unit`) and `requestMetadata`. -/
structure ApiState where
  abortSubjects : List (String × Unit)
  requestMetadata : List (String × RequestMeta)
deriving DecidableEq

/-- The fixed chat-completion endpoint. -/
def API_URL : String := "https://openrouter.ai/api/v1/chat/completions"

/-- Caller-supplied options of `generateText` (all fields optional). -/
structure GenerateOptions where
  model : Option String := none
  maxTokens : Option Nat := none
  temperature : Option Rat := none
  topP : Option Rat := none
  wordCount : Option Nat := none
  requestId : Option String := none
deriving DecidableEq

/-- What the synchronous prefix of `generateText` hands to the asynchronous
part: the assembled payload, the resolved request id and the audit log id. -/
structure AdmitResult where
  request : OpenRouterRequest
  requestId : String
  logId : String
deriving DecidableEq

/-- `cleanupRequest(requestId)`: if an abort subject exists, complete and
delete it; always delete the metadata entry. -/
def cleanupRequest (requestId : String) (st : ApiState) : ApiState :=
  let abortSubjects :=
    match mapGet st.abortSubjects requestId with
    | some _ => mapDelete st.abortSubjects requestId
    | none => st.abortSubjects
  { abortSubjects := abortSubjects
    requestMetadata := mapDelete st.requestMetadata requestId }

/-- The synchronous prefix of `generateText(prompt, options)`: validation,
payload assembly, `logRequest`, registration of the abort subject and the
metadata.  `startTime` is the `Date.now()` read at entry, `generatedId` the
value `this.generateRequestId()` would return, `logId` the id returned by
`aiLogger.logRequest`.  Returns the thrown error message or the admitted
request, together with the new registry state and the audit-logger calls
made. -/
def generateTextSync (settings : Settings) (startTime : Nat)
    (generatedId : String) (logId : String) (prompt : String)
    (options : GenerateOptions) (st : ApiState) :
    Except String AdmitResult × ApiState × List LogEvent :=
  if settings.openRouter.enabled = false ∨ settings.openRouter.apiKey = "" then
    (Except.error "OpenRouter API ist nicht aktiviert oder API-Key fehlt", st, [])
  else
    let model := jsOrString options.model settings.openRouter.model
    if model = "" then
      (Except.error "Kein AI-Modell ausgewählt", st, [])
    else
      let maxTokens := jsOrNat options.maxTokens 500
      let wordCount := jsOrNat options.wordCount (maxTokens * 10 / 13)
      let request : OpenRouterRequest :=
        { model := model
          messages := [{ role := Role.user, content := prompt }]
          max_tokens := some maxTokens
          temperature := some (options.temperature.getD settings.openRouter.temperature)
          top_p := some (options.topP.getD settings.openRouter.topP) }
      let requestId := jsOrString options.requestId generatedId
      let st' : ApiState :=
        { abortSubjects := mapSet st.abortSubjects requestId ()
          requestMetadata :=
            mapSet st.requestMetadata requestId { logId := logId, startTime := startTime } }
      (Except.ok { request := request, requestId := requestId, logId := logId },
       st',
       [LogEvent.logRequest logId API_URL model wordCount maxTokens prompt])

/-- The `tap` `next` callback: log success with the first choice's content
(empty string when absent) and the elapsed duration, then clean up. -/
def handleNext (requestId : String) (logId : String) (startTime now : Nat)
    (response : OpenRouterResponse) (st : ApiState) : ApiState × List LogEvent :=
  let duration := now - startTime
  let content :=
    jsOrString ((response.choices.head?).map (fun c => c.message.content)) ""
  (cleanupRequest requestId st, [LogEvent.logSuccess logId content duration])

/-- The `tap` `error` callback: extract
`error.message || error.error?.message || 'Unknown error'`, log the error with
the elapsed duration, then clean up. -/
def handleError (requestId : String) (logId : String) (startTime now : Nat)
    (e : HttpError) (st : ApiState) : ApiState × List LogEvent :=
  let duration := now - startTime
  let errorMessage :=
    jsOrString e.message
      (jsOrString (e.error.bind (fun b => b.message)) "Unknown error")
  (cleanupRequest requestId st, [LogEvent.logError logId errorMessage duration])

/-- `abortRequest(requestId)`: when both the abort subject and the metadata
exist, log the abort with the elapsed duration, signal the subject and clean
up; otherwise do nothing. -/
def abortRequest (requestId : String) (now : Nat) (st : ApiState) :
    ApiState × List LogEvent :=
  match mapGet st.abortSubjects requestId, mapGet st.requestMetadata requestId with
  | some _, some metadata =>
      let duration := now - metadata.startTime
      (cleanupRequest requestId st, [LogEvent.logAborted metadata.logId duration])
  | _, _ => (st, [])

/-- Outcome with which the pending transport call eventually settles. -/
inductive TransportOutcome
  | success (response : OpenRouterResponse)
  | failure (e : HttpError)

/-- Execution snapshot of one admitted request: the registry state, whether
the subscription downstream of `takeUntil(abortSubject)` is still open, and
the audit calls made so far. -/
structure RequestExec where
  st : ApiState
  active : Bool
  events : List LogEvent

/-- Admission: run the synchronous prefix of `generateText`; when it does not
throw, the request is in flight with an open subscription. -/
def admission (settings : Settings) (startTime : Nat) (generatedId : String)
    (logId : String) (prompt : String) (options : GenerateOptions)
    (st : ApiState) : Option (AdmitResult × RequestExec) :=
  match generateTextSync settings startTime generatedId logId prompt options st with
  | (Except.ok r, st', events) =>
      some (r, { st := st', active := true, events := events })
  | (Except.error _, _, _) => none

/-- Transport settlement: the `tap` callbacks run only while the subscription
is open (`takeUntil` has not fired); a settlement ends the one-shot
subscription.  A settlement arriving after cancellation is discarded. -/
def stepSettle (requestId : String) (logId : String) (startTime now : Nat)
    (outcome : TransportOutcome) (ex : RequestExec) : RequestExec :=
  if ex.active then
    match outcome with
    | TransportOutcome.success response =>
        let r := handleNext requestId logId startTime now response ex.st
        { st := r.1, active := false, events := ex.events ++ r.2 }
    | TransportOutcome.failure e =>
        let r := handleError requestId logId startTime now e ex.st
        { st := r.1, active := false, events := ex.events ++ r.2 }
  else ex

/-- `abortRequest` acting on an execution snapshot: when the id is registered,
`abortSubject.next()` makes `takeUntil` complete the downstream subscription,
so the pending `tap` callbacks are dropped. -/
def stepAbort (requestId : String) (now : Nat) (ex : RequestExec) : RequestExec :=
  match mapGet ex.st.abortSubjects requestId, mapGet ex.st.requestMetadata requestId with
  | some _, some metadata =>
      { st := cleanupRequest requestId ex.st
        active := false
        events := ex.events ++ [LogEvent.logAborted metadata.logId (now - metadata.startTime)] }
  | _, _ => ex

/-- Is the event a transport-settlement audit call (`logSuccess`/`logError`)? -/
def isSettleLog : LogEvent → Bool
  | LogEvent.logSuccess _ _ _ => true
  | LogEvent.logError _ _ _ => true
  | _ => false

/-- The cross-registry invariant: an id has an abort subject iff it has a
metadata entry. -/
def RegistriesInSync (st : ApiState) : Prop :=
  ∀ k, (mapGet st.abortSubjects k).isSome = (mapGet st.requestMetadata k).isSome

/-! ### Association-list lookup lemmas -/

theorem find?_filter_key_ne {α : Type _} (m : List (String × α)) (k k' : String)
    (h : k' ≠ k) :
    (m.filter (fun p => p.1 != k)).find? (fun p => p.1 == k') =
      m.find? (fun p => p.1 == k') := by
  induction m with
  | nil => rfl
  | cons p m ih =>
    by_cases hp : p.1 = k
    · have hk' : (k == k') = false := by
        simp only [beq_eq_false_iff_ne, ne_eq]
        exact fun hh => h hh.symm
      simp [List.filter_cons, List.find?_cons, hp, hk', ih]
    · by_cases hq : p.1 = k'
      · simp [List.filter_cons, List.find?_cons, hp, hq, h]
      · simp [List.filter_cons, List.find?_cons, hp, hq, ih]

theorem find?_filter_key_self {α : Type _} (m : List (String × α)) (k : String) :
    (m.filter (fun p => p.1 != k)).find? (fun p => p.1 == k) = none := by
  induction m with
  | nil => rfl
  | cons p m ih =>
    by_cases hp : p.1 = k
    · simp [List.filter_cons, hp, ih]
    · simp [List.filter_cons, List.find?_cons, hp, ih]

theorem mapGet_set_self {α : Type _} (m : List (String × α)) (k : String) (v : α) :
    mapGet (mapSet m k v) k = some v := by
  simp [mapGet, mapSet, List.find?_cons]

theorem mapGet_set_ne {α : Type _} (m : List (String × α)) (k k' : String) (v : α)
    (h : k' ≠ k) : mapGet (mapSet m k v) k' = mapGet m k' := by
  have hk : (k == k') = false := by
    simp only [beq_eq_false_iff_ne, ne_eq]
    exact fun hh => h hh.symm
  simp [mapGet, mapSet, List.find?_cons, hk, find?_filter_key_ne m k k' h]

theorem mapGet_delete_self {α : Type _} (m : List (String × α)) (k : String) :
    mapGet (mapDelete m k) k = none := by
  simp [mapGet, mapDelete, find?_filter_key_self]

theorem mapGet_delete_ne {α : Type _} (m : List (String × α)) (k k' : String)
    (h : k' ≠ k) : mapGet (mapDelete m k) k' = mapGet m k' := by
  simp [mapGet, mapDelete, find?_filter_key_ne m k k' h]

/-! ### Cleanup lemmas -/

theorem cleanupRequest_abortSubjects_self (requestId : String) (st : ApiState) :
    mapGet (cleanupRequest requestId st).abortSubjects requestId = none := by
  cases h : mapGet st.abortSubjects requestId with
  | none => simp [cleanupRequest, h]
  | some v => simp [cleanupRequest, h, mapGet_delete_self]

theorem cleanupRequest_requestMetadata_self (requestId : String) (st : ApiState) :
    mapGet (cleanupRequest requestId st).requestMetadata requestId = none := by
  cases h : mapGet st.abortSubjects requestId with
  | none => simp [cleanupRequest, h, mapGet_delete_self]
  | some v => simp [cleanupRequest, h, mapGet_delete_self]

theorem cleanupRequest_abortSubjects_ne (requestId k : String) (st : ApiState)
    (h : k ≠ requestId) :
    mapGet (cleanupRequest requestId st).abortSubjects k =
      mapGet st.abortSubjects k := by
  cases hs : mapGet st.abortSubjects requestId with
  | none => simp [cleanupRequest, hs]
  | some v => simp [cleanupRequest, hs, mapGet_delete_ne _ _ _ h]

theorem cleanupRequest_requestMetadata_ne (requestId k : String) (st : ApiState)
    (h : k ≠ requestId) :
    mapGet (cleanupRequest requestId st).requestMetadata k =
      mapGet st.requestMetadata k := by
  cases hs : mapGet st.abortSubjects requestId with
  | none => simp [cleanupRequest, hs, mapGet_delete_ne _ _ _ h]
  | some v => simp [cleanupRequest, hs, mapGet_delete_ne _ _ _ h]

theorem cleanupRequest_sync (requestId : String) (st : ApiState)
    (h : RegistriesInSync st) : RegistriesInSync (cleanupRequest requestId st) := by
  intro k
  by_cases hk : k = requestId
  · subst hk
    rw [cleanupRequest_abortSubjects_self, cleanupRequest_requestMetadata_self]
    rfl
  · rw [cleanupRequest_abortSubjects_ne _ _ _ hk,
      cleanupRequest_requestMetadata_ne _ _ _ hk]
    exact h k

/-! ### Characterization of the synchronous prefix of `generateText` -/

/-- When validation passes, the synchronous prefix admits the request; this
spells out the admitted result, the new registry state and the single
`logRequest` call. -/
theorem generateTextSync_pass (settings : Settings) (startTime : Nat)
    (generatedId logId prompt : String) (options : GenerateOptions) (st : ApiState)
    (hE : settings.openRouter.enabled = true)
    (hK : settings.openRouter.apiKey ≠ "")
    (hM : jsOrString options.model settings.openRouter.model ≠ "") :
    generateTextSync settings startTime generatedId logId prompt options st =
      (Except.ok
        { request :=
            { model := jsOrString options.model settings.openRouter.model
              messages := [{ role := Role.user, content := prompt }]
              max_tokens := some (jsOrNat options.maxTokens 500)
              temperature := some (options.temperature.getD settings.openRouter.temperature)
              top_p := some (options.topP.getD settings.openRouter.topP)
              stream := none }
          requestId := jsOrString options.requestId generatedId
          logId := logId },
       { abortSubjects := mapSet st.abortSubjects (jsOrString options.requestId generatedId) ()
         requestMetadata := mapSet st.requestMetadata (jsOrString options.requestId generatedId)
           { logId := logId, startTime := startTime } },
       [LogEvent.logRequest logId API_URL (jsOrString options.model settings.openRouter.model)
          (jsOrNat options.wordCount (jsOrNat options.maxTokens 500 * 10 / 13))
          (jsOrNat options.maxTokens 500) prompt]) := by
  simp [generateTextSync, hE, hK, hM]

/-- A request is only ever admitted when all three validation checks pass. -/
theorem generateTextSync_ok_valid (settings : Settings) (startTime : Nat)
    (generatedId logId prompt : String) (options : GenerateOptions) (st : ApiState)
    (r : AdmitResult)
    (h : (generateTextSync settings startTime generatedId logId prompt options st).1 =
      Except.ok r) :
    settings.openRouter.enabled = true ∧ settings.openRouter.apiKey ≠ "" ∧
      jsOrString options.model settings.openRouter.model ≠ "" := by
  by_cases h1 : settings.openRouter.enabled = false ∨ settings.openRouter.apiKey = ""
  · exfalso
    unfold generateTextSync at h
    rw [if_pos h1] at h
    simp at h
  · by_cases h2 : jsOrString options.model settings.openRouter.model = ""
    · exfalso
      unfold generateTextSync at h
      rw [if_neg h1] at h
      simp [h2] at h
    · push_neg at h1
      refine ⟨?_, h1.2, h2⟩
      cases hb : settings.openRouter.enabled
      · exact absurd hb h1.1
      · rfl

/-! ### Concrete fixtures used by witnesses and counterexamples -/

/-- Sample settings: integration enabled, credential present, default model
`"m"`, default temperature and top-p `1`. -/
def sampleSettings : Settings :=
  { openRouter := { enabled := true, apiKey := "k", model := "m", temperature := 1, topP := 1 } }

/-- Sample provider response with one candidate completion. -/
def sampleResponse : OpenRouterResponse :=
  { id := "gen-1", object := "chat.completion", created := 0, model := "m"
    choices := [{ index := 0, message := { role := "assistant", content := "Hi" },
                  finish_reason := "stop" }]
    usage := { prompt_tokens := 1, completion_tokens := 1, total_tokens := 2 } }

/-- The result admitted for prompt `"p"`, caller-supplied id `"rid"` and
otherwise empty options under `sampleSettings`. -/
def sampleAdmit : AdmitResult :=
  { request := { model := "m", messages := [{ role := Role.user, content := "p" }]
                 max_tokens := some 500, temperature := some 1, top_p := some 1 }
    requestId := "rid", logId := "L" }

/-- Execution snapshot right after the admission of `sampleAdmit`. -/
def sampleExec : RequestExec :=
  { st := { abortSubjects := [("rid", ())]
            requestMetadata := [("rid", { logId := "L", startTime := 0 })] }
    active := true
    events := [LogEvent.logRequest "L" API_URL "m" 384 500 "p"] }

/-- Options overriding both sampling parameters with an explicit zero. -/
def zeroOptions : GenerateOptions := { temperature := some 0, topP := some 0 }

/-- The result admitted for `zeroOptions` under `sampleSettings`. -/
def zeroAdmit : AdmitResult :=
  { request := { model := "m", messages := [{ role := Role.user, content := "p" }]
                 max_tokens := some 500, temperature := some 0, top_p := some 0 }
    requestId := "gen", logId := "L" }

/-- The result admitted for `{ maxTokens := some 7 }` under `sampleSettings`. -/
def sevenAdmit : AdmitResult :=
  { request := { model := "m", messages := [{ role := Role.user, content := "p" }]
                 max_tokens := some 7, temperature := some 1, top_p := some 1 }
    requestId := "gen", logId := "L" }

/-- The result admitted for `{ maxTokens := some 0 }` under `sampleSettings`:
the payload carries the fallback `500`. -/
def zeroMaxAdmit : AdmitResult :=
  { request := { model := "m", messages := [{ role := Role.user, content := "p" }]
                 max_tokens := some 500, temperature := some 1, top_p := some 1 }
    requestId := "gen", logId := "L" }

/-- Is the except value a success? -/
def isOk : Except ε α → Bool
  | Except.ok _ => true
  | Except.error _ => false

/-! ### Claim theorems -/

/-- C3: whenever validation fails (integration disabled, missing API key, or
no model resolvable from the caller override or the configuration default),
`generateText` fails synchronously with a configuration error and performs no
side effect: no audit-logger method is called and neither registry is
modified. -/
theorem c3_validation_failure_no_side_effect
    (settings : Settings) (startTime : Nat) (generatedId logId prompt : String)
    (options : GenerateOptions) (st : ApiState)
    (h : settings.openRouter.enabled = false ∨ settings.openRouter.apiKey = "" ∨
      jsOrString options.model settings.openRouter.model = "") :
    ((generateTextSync settings startTime generatedId logId prompt options st).1 =
        Except.error "OpenRouter API ist nicht aktiviert oder API-Key fehlt" ∨
      (generateTextSync settings startTime generatedId logId prompt options st).1 =
        Except.error "Kein AI-Modell ausgewählt") ∧
    (generateTextSync settings startTime generatedId logId prompt options st).2.1 = st ∧
    (generateTextSync settings startTime generatedId logId prompt options st).2.2 = [] := by
  by_cases h1 : settings.openRouter.enabled = false ∨ settings.openRouter.apiKey = ""
  · refine ⟨Or.inl ?_, ?_, ?_⟩ <;> simp [generateTextSync, h1]
  · have h2 : jsOrString options.model settings.openRouter.model = "" := by
      rcases h with h | h | h
      · exact absurd (Or.inl h) h1
      · exact absurd (Or.inr h) h1
      · exact h
    refine ⟨Or.inr ?_, ?_, ?_⟩ <;> simp [generateTextSync, h1, h2]

/-- C3 witness: with the integration disabled, the call errors and leaves the
empty registries untouched with no audit call. -/
theorem c3_validation_failure_no_side_effect_witness :
    ((generateTextSync ⟨⟨false, "k", "m", 1, 1⟩⟩ 0 "gen" "L" "p" {} ⟨[], []⟩).1 =
        Except.error "OpenRouter API ist nicht aktiviert oder API-Key fehlt" ∨
      (generateTextSync ⟨⟨false, "k", "m", 1, 1⟩⟩ 0 "gen" "L" "p" {} ⟨[], []⟩).1 =
        Except.error "Kein AI-Modell ausgewählt") ∧
    (generateTextSync ⟨⟨false, "k", "m", 1, 1⟩⟩ 0 "gen" "L" "p" {} ⟨[], []⟩).2.1 =
      (⟨[], []⟩ : ApiState) ∧
    (generateTextSync ⟨⟨false, "k", "m", 1, 1⟩⟩ 0 "gen" "L" "p" {} ⟨[], []⟩).2.2 = [] :=
  c3_validation_failure_no_side_effect ⟨⟨false, "k", "m", 1, 1⟩⟩ 0 "gen" "L" "p" {}
    ⟨[], []⟩ (Or.inl rfl)

/-- C7 counterexample: the claim says `maxTokens: 0` is honored, but the code
resolves `options.maxTokens || 500`, so an explicit `0` yields a payload with
`max_tokens = 500`, not `0`. -/
theorem c7_max_tokens_zero_counterexample :
    (generateTextSync sampleSettings 0 "gen" "L" "p" { maxTokens := some 0 }
        ⟨[], []⟩).1 = Except.ok zeroMaxAdmit ∧
    zeroMaxAdmit.request.max_tokens = some 500 ∧
    (some 500 : Option Nat) ≠ some 0 := by
  refine ⟨rfl, rfl, by decide⟩

/-- C7 (amended): max-tokens resolution is the JS truthiness fallback
`options.maxTokens || 500`: a supplied nonzero value is honored, while an
absent value or an explicit `0` falls back to `500`. -/
theorem c7_max_tokens_truthiness
    (settings : Settings) (startTime : Nat) (generatedId logId prompt : String)
    (options : GenerateOptions) (st : ApiState) (r : AdmitResult)
    (h : (generateTextSync settings startTime generatedId logId prompt options st).1 =
      Except.ok r) :
    r.request.max_tokens = some (jsOrNat options.maxTokens 500) ∧
    ((options.maxTokens = none ∨ options.maxTokens = some 0) →
      r.request.max_tokens = some 500) ∧
    (∀ n, options.maxTokens = some n → n ≠ 0 → r.request.max_tokens = some n) := by
  obtain ⟨hE, hK, hM⟩ :=
    generateTextSync_ok_valid settings startTime generatedId logId prompt options st r h
  rw [generateTextSync_pass settings startTime generatedId logId prompt options st hE hK hM]
    at h
  replace h := Except.ok.inj h
  subst h
  refine ⟨rfl, ?_, ?_⟩
  · rintro (hx | hx) <;> simp [jsOrNat, hx]
  · intro n hx hn
    simp [jsOrNat, hx, hn]

/-- C7 witness: a supplied nonzero `maxTokens` of `7` reaches the payload. -/
theorem c7_max_tokens_truthiness_witness :
    sevenAdmit.request.max_tokens = some 7 :=
  (c7_max_tokens_truthiness sampleSettings 0 "gen" "L" "p" { maxTokens := some 7 }
    ⟨[], []⟩ sevenAdmit rfl).2.2 7 rfl (by decide)

/-- C8: the temperature and top-p of the assembled payload equal the
caller-supplied value when present and the configuration default otherwise;
an explicit `0` is honored and sent as `0`. -/
theorem c8_temperature_top_p_is_present
    (settings : Settings) (startTime : Nat) (generatedId logId prompt : String)
    (options : GenerateOptions) (st : ApiState) (r : AdmitResult)
    (h : (generateTextSync settings startTime generatedId logId prompt options st).1 =
      Except.ok r) :
    r.request.temperature = some (options.temperature.getD settings.openRouter.temperature) ∧
    r.request.top_p = some (options.topP.getD settings.openRouter.topP) ∧
    (options.temperature = some 0 → r.request.temperature = some 0) ∧
    (options.topP = some 0 → r.request.top_p = some 0) ∧
    (options.temperature = none →
      r.request.temperature = some settings.openRouter.temperature) ∧
    (options.topP = none → r.request.top_p = some settings.openRouter.topP) := by
  obtain ⟨hE, hK, hM⟩ :=
    generateTextSync_ok_valid settings startTime generatedId logId prompt options st r h
  rw [generateTextSync_pass settings startTime generatedId logId prompt options st hE hK hM]
    at h
  replace h := Except.ok.inj h
  subst h
  refine ⟨rfl, rfl, ?_, ?_, ?_, ?_⟩ <;> intro hx <;> simp [hx]

/-- C8 witness: an explicit zero temperature and top-p are sent as zero. -/
theorem c8_temperature_top_p_is_present_witness :
    zeroAdmit.request.temperature = some 0 ∧ zeroAdmit.request.top_p = some 0 := by
  have h := c8_temperature_top_p_is_present sampleSettings 0 "gen" "L" "p" zeroOptions
    ⟨[], []⟩ zeroAdmit rfl
  exact ⟨h.2.2.1 rfl, h.2.2.2.1 rfl⟩

/-- C9: when `options.wordCount` is not supplied, the hint passed to
`logRequest` is `floor(maxTokens / 1.3)` of the resolved max-tokens (so
`maxTokens: 130` logs exactly `100`), and the hint never appears in the
payload sent to the provider (the admitted result is independent of
`options.wordCount`). -/
theorem c9_word_count_hint
    (settings : Settings) (startTime : Nat) (generatedId logId prompt : String)
    (options : GenerateOptions) (st : ApiState)
    (hE : settings.openRouter.enabled = true)
    (hK : settings.openRouter.apiKey ≠ "")
    (hM : jsOrString options.model settings.openRouter.model ≠ "")
    (hw : options.wordCount = none) :
    (generateTextSync settings startTime generatedId logId prompt options st).2.2 =
      [LogEvent.logRequest logId API_URL (jsOrString options.model settings.openRouter.model)
        (jsOrNat options.maxTokens 500 * 10 / 13) (jsOrNat options.maxTokens 500) prompt] ∧
    (options.maxTokens = some 130 →
      (generateTextSync settings startTime generatedId logId prompt options st).2.2 =
        [LogEvent.logRequest logId API_URL (jsOrString options.model settings.openRouter.model)
          100 130 prompt]) ∧
    (∀ w, (generateTextSync settings startTime generatedId logId prompt
        { options with wordCount := w } st).1 =
      (generateTextSync settings startTime generatedId logId prompt options st).1) := by
  refine ⟨?_, ?_, ?_⟩
  · rw [generateTextSync_pass settings startTime generatedId logId prompt options st hE hK hM]
    simp [hw, jsOrNat]
  · intro hmt
    rw [generateTextSync_pass settings startTime generatedId logId prompt options st hE hK hM]
    simp [hw, hmt, jsOrNat]
  · intro w
    by_cases h1 : settings.openRouter.enabled = false ∨ settings.openRouter.apiKey = ""
    · simp [generateTextSync, h1]
    · by_cases h2 : jsOrString options.model settings.openRouter.model = ""
      · simp [generateTextSync, h1, h2]
      · simp [generateTextSync, h1, h2]

/-- C9 witness: `maxTokens: 130` with no explicit word count logs a hint of
exactly `100`. -/
theorem c9_word_count_hint_witness :
    (generateTextSync sampleSettings 0 "gen" "L" "p" { maxTokens := some 130 }
        ⟨[], []⟩).2.2 =
      [LogEvent.logRequest "L" API_URL "m" 100 130 "p"] :=
  (c9_word_count_hint sampleSettings 0 "gen" "L" "p" { maxTokens := some 130 }
    ⟨[], []⟩ rfl (by decide) (by decide) rfl).2.1 rfl

/-- C10: an empty-string model override is treated as absent by the
truthiness resolution `options.model || settings.openRouter.model`: when the
configuration default is non-empty the call succeeds with the default model
in the payload, and only when the default is also empty does the call fail
with the configuration error; an empty model string never reaches the
payload. -/
theorem c10_empty_model_override_fallback
    (settings : Settings) (startTime : Nat) (generatedId logId prompt : String)
    (options : GenerateOptions) (st : ApiState)
    (hmodel : options.model = some "")
    (hE : settings.openRouter.enabled = true)
    (hK : settings.openRouter.apiKey ≠ "") :
    (settings.openRouter.model ≠ "" →
      isOk (generateTextSync settings startTime generatedId logId prompt options st).1 =
        true ∧
      (∀ r, (generateTextSync settings startTime generatedId logId prompt options st).1 =
        Except.ok r → r.request.model = settings.openRouter.model)) ∧
    (settings.openRouter.model = "" →
      (generateTextSync settings startTime generatedId logId prompt options st).1 =
        Except.error "Kein AI-Modell ausgewählt") := by
  have hjs : jsOrString options.model settings.openRouter.model =
      settings.openRouter.model := by
    rw [hmodel]; rfl
  constructor
  · intro hd
    have key := generateTextSync_pass settings startTime generatedId logId prompt options st
      hE hK (by rw [hjs]; exact hd)
    constructor
    · rw [key]; rfl
    · intro r hr
      rw [key] at hr
      replace hr := Except.ok.inj hr
      subst hr
      exact hjs
  · intro hd
    have h1 : ¬(settings.openRouter.enabled = false ∨ settings.openRouter.apiKey = "") := by
      simp [hE, hK]
    simp [generateTextSync, h1, hmodel, jsOrString, hd]

/-- C10 witness: with a non-empty configured default the empty override
succeeds; with an empty default the call fails with the model error. -/
theorem c10_empty_model_override_fallback_witness :
    isOk (generateTextSync sampleSettings 0 "gen" "L" "p" { model := some "" }
        ⟨[], []⟩).1 = true ∧
    (generateTextSync ⟨⟨true, "k", "", 1, 1⟩⟩ 0 "gen" "L" "p" { model := some "" }
        ⟨[], []⟩).1 = Except.error "Kein AI-Modell ausgewählt" :=
  ⟨((c10_empty_model_override_fallback sampleSettings 0 "gen" "L" "p" { model := some "" }
      ⟨[], []⟩ rfl rfl (by decide)).1 (by decide)).1,
   (c10_empty_model_override_fallback ⟨⟨true, "k", "", 1, 1⟩⟩ 0 "gen" "L" "p"
      { model := some "" } ⟨[], []⟩ rfl rfl (by decide)).2 rfl⟩

/-- C6 counterexample: registering a colliding request id does not fail; the
code's `Map.set` silently replaces the existing registration, so the claimed
`InvariantViolation` on collision is absent. -/
theorem c6_duplicate_registration_counterexample :
    isOk (generateTextSync sampleSettings 7 "gen" "L2" "p" { requestId := some "r" }
        ⟨[("r", ())], [("r", { logId := "L1", startTime := 5 })]⟩).1 = true ∧
    mapGet (generateTextSync sampleSettings 7 "gen" "L2" "p" { requestId := some "r" }
        ⟨[("r", ())], [("r", { logId := "L1", startTime := 5 })]⟩).2.1.requestMetadata
      "r" = some { logId := "L2", startTime := 7 } ∧
    ({ logId := "L2", startTime := 7 } : RequestMeta) ≠ { logId := "L1", startTime := 5 } :=
  ⟨rfl, rfl, by decide⟩

/-- C6 (amended): `generateText` with an `options.requestId` that collides
with a currently-registered id raises no error: `Map.set` silently overwrites
the existing registration, and afterwards both registries hold the fresh
entry for that id. -/
theorem c6_duplicate_registration_overwrites
    (settings : Settings) (startTime : Nat) (generatedId logId prompt rid : String)
    (options : GenerateOptions) (st : ApiState)
    (hE : settings.openRouter.enabled = true)
    (hK : settings.openRouter.apiKey ≠ "")
    (hM : jsOrString options.model settings.openRouter.model ≠ "")
    (hrid : options.requestId = some rid) (hne : rid ≠ "") :
    isOk (generateTextSync settings startTime generatedId logId prompt options st).1 =
      true ∧
    mapGet (generateTextSync settings startTime generatedId logId prompt options
        st).2.1.abortSubjects rid = some () ∧
    mapGet (generateTextSync settings startTime generatedId logId prompt options
        st).2.1.requestMetadata rid = some { logId := logId, startTime := startTime } := by
  have hid : jsOrString options.requestId generatedId = rid := by
    rw [hrid]; simp [jsOrString, hne]
  have key := generateTextSync_pass settings startTime generatedId logId prompt options st
    hE hK hM
  rw [key]
  refine ⟨rfl, ?_, ?_⟩
  · simp [hid, mapGet_set_self]
  · simp [hid, mapGet_set_self]

/-- C6 witness: admitting with a colliding id `"rid"` over a state already
holding `"rid"` succeeds and reregisters the id with the fresh metadata. -/
theorem c6_duplicate_registration_overwrites_witness :
    isOk (generateTextSync sampleSettings 7 "gen" "L2" "p" { requestId := some "rid" }
        ⟨[("rid", ())], [("rid", { logId := "L1", startTime := 5 })]⟩).1 = true ∧
    mapGet (generateTextSync sampleSettings 7 "gen" "L2" "p" { requestId := some "rid" }
        ⟨[("rid", ())], [("rid", { logId := "L1", startTime := 5 })]⟩).2.1.abortSubjects
      "rid" = some () ∧
    mapGet (generateTextSync sampleSettings 7 "gen" "L2" "p" { requestId := some "rid" }
        ⟨[("rid", ())], [("rid", { logId := "L1", startTime := 5 })]⟩).2.1.requestMetadata
      "rid" = some { logId := "L2", startTime := 7 } :=
  c6_duplicate_registration_overwrites sampleSettings 7 "gen" "L2" "p" "rid"
    { requestId := some "rid" }
    ⟨[("rid", ())], [("rid", { logId := "L1", startTime := 5 })]⟩
    rfl (by decide) (by decide) rfl (by decide)

/-- C4: `abortRequest` on an unregistered id is an observable no-op (state
unchanged, no audit call, no exception is modelled since the guard covers
every lookup), and aborting a registered id twice in succession produces
exactly one `logAborted` call: the second call finds nothing registered and
no-ops. -/
theorem c4_abort_noop_and_idempotent :
    (∀ requestId now st,
      (mapGet st.abortSubjects requestId = none ∨
        mapGet st.requestMetadata requestId = none) →
      abortRequest requestId now st = (st, [])) ∧
    (∀ requestId t1 t2 st m,
      mapGet st.abortSubjects requestId = some () →
      mapGet st.requestMetadata requestId = some m →
      (abortRequest requestId t1 st).2 =
        [LogEvent.logAborted m.logId (t1 - m.startTime)] ∧
      abortRequest requestId t2 (abortRequest requestId t1 st).1 =
        ((abortRequest requestId t1 st).1, [])) := by
  constructor
  · intro requestId now st h
    rcases h with h | h
    · cases h2 : mapGet st.requestMetadata requestId <;> simp [abortRequest, h, h2]
    · cases h1 : mapGet st.abortSubjects requestId <;> simp [abortRequest, h, h1]
  · intro requestId t1 t2 st m h1 h2
    have hstate : (abortRequest requestId t1 st).1 = cleanupRequest requestId st := by
      simp [abortRequest, h1, h2]
    refine ⟨by simp [abortRequest, h1, h2], ?_⟩
    rw [hstate]
    have hc1 := cleanupRequest_abortSubjects_self requestId st
    cases h2' : mapGet (cleanupRequest requestId st).requestMetadata requestId <;>
      simp [abortRequest, hc1, h2']

/-- C4 witness: aborting an unknown id on empty registries is a no-op, and a
double abort of the registered id `"rid"` logs exactly one abort. -/
theorem c4_abort_noop_and_idempotent_witness :
    abortRequest "x" 0 ⟨[], []⟩ = ((⟨[], []⟩ : ApiState), []) ∧
    ((abortRequest "rid" 10 sampleExec.st).2 = [LogEvent.logAborted "L" 10] ∧
      abortRequest "rid" 11 (abortRequest "rid" 10 sampleExec.st).1 =
        ((abortRequest "rid" 10 sampleExec.st).1, [])) :=
  ⟨c4_abort_noop_and_idempotent.1 "x" 0 ⟨[], []⟩ (Or.inl rfl),
   c4_abort_noop_and_idempotent.2 "rid" 10 11 sampleExec.st
     { logId := "L", startTime := 0 } rfl rfl⟩

/-- C5 counterexample: the claim prefers the structured provider message, but
with both messages present the code logs the generic transport message
(`error.message` comes first in `error.message || error.error?.message ||
'Unknown error'`). -/
theorem c5_message_preference_counterexample :
    (handleError "rid" "L" 0 10
        { message := some "Http failure response"
          error := some { message := some "Provider detail" } }
        ⟨[], []⟩).2 = [LogEvent.logError "L" "Http failure response" 10] ∧
    "Http failure response" ≠ "Provider detail" := ⟨rfl, by decide⟩

/-- C5 (amended): the message logged on transport error follows the code's
preference order `error.message || error.error?.message || "Unknown error"`:
the generic transport message is preferred, the structured provider body
message is the first fallback, and the literal `"Unknown error"` is the final
fallback (absent and empty-string messages are both falsy). -/
theorem c5_message_preference_order
    (requestId logId : String) (startTime now : Nat) (e : HttpError) (st : ApiState) :
    (handleError requestId logId startTime now e st).2 =
      [LogEvent.logError logId
        (jsOrString e.message
          (jsOrString (e.error.bind (fun b => b.message)) "Unknown error"))
        (now - startTime)] ∧
    (∀ m, e.message = some m → m ≠ "" →
      (handleError requestId logId startTime now e st).2 =
        [LogEvent.logError logId m (now - startTime)]) ∧
    ((e.message = none ∨ e.message = some "") →
      ∀ m, e.error.bind (fun b => b.message) = some m → m ≠ "" →
        (handleError requestId logId startTime now e st).2 =
          [LogEvent.logError logId m (now - startTime)]) ∧
    ((e.message = none ∨ e.message = some "") →
      (e.error.bind (fun b => b.message) = none ∨
        e.error.bind (fun b => b.message) = some "") →
      (handleError requestId logId startTime now e st).2 =
        [LogEvent.logError logId "Unknown error" (now - startTime)]) := by
  refine ⟨rfl, ?_, ?_, ?_⟩
  · intro m hm hne
    simp [handleError, jsOrString, hm, hne]
  · rintro (hm | hm) m hb hne <;> simp [handleError, jsOrString, hm, hb, hne]
  · rintro (hm | hm) (hb | hb) <;> simp [handleError, jsOrString, hm, hb]

/-- C5 witness: with only the generic transport message present, it is the
message logged. -/
theorem c5_message_preference_order_witness :
    (handleError "rid" "L" 0 10 { message := some "boom" } ⟨[], []⟩).2 =
      [LogEvent.logError "L" "boom" 10] :=
  (c5_message_preference_order "rid" "L" 0 10 { message := some "boom" }
    ⟨[], []⟩).2.1 "boom" rfl (by decide)

/-- C1: the cancellation registry and the metadata store hold entries for
exactly the same ids across every synchronous step of the manager (admission
registers both together; every handler releases both together), and after any
terminal path — success, error, or abort — completes for an id, neither
registry contains an entry for that id. -/
theorem c1_registries_in_sync :
    (∀ settings startTime generatedId logId prompt options st,
      RegistriesInSync st →
      RegistriesInSync
        (generateTextSync settings startTime generatedId logId prompt options st).2.1) ∧
    (∀ requestId logId startTime now response st, RegistriesInSync st →
      RegistriesInSync (handleNext requestId logId startTime now response st).1) ∧
    (∀ requestId logId startTime now e st, RegistriesInSync st →
      RegistriesInSync (handleError requestId logId startTime now e st).1) ∧
    (∀ requestId now st, RegistriesInSync st →
      RegistriesInSync (abortRequest requestId now st).1) ∧
    (∀ requestId st, RegistriesInSync st →
      RegistriesInSync (cleanupRequest requestId st)) ∧
    (∀ requestId logId startTime now response st,
      mapGet (handleNext requestId logId startTime now response st).1.abortSubjects
          requestId = none ∧
      mapGet (handleNext requestId logId startTime now response st).1.requestMetadata
          requestId = none) ∧
    (∀ requestId logId startTime now e st,
      mapGet (handleError requestId logId startTime now e st).1.abortSubjects
          requestId = none ∧
      mapGet (handleError requestId logId startTime now e st).1.requestMetadata
          requestId = none) ∧
    (∀ requestId now st m,
      mapGet st.abortSubjects requestId = some () →
      mapGet st.requestMetadata requestId = some m →
      mapGet (abortRequest requestId now st).1.abortSubjects requestId = none ∧
      mapGet (abortRequest requestId now st).1.requestMetadata requestId = none) := by
  refine ⟨?_, ?_, ?_, ?_, ?_, ?_, ?_, ?_⟩
  · intro settings startTime generatedId logId prompt options st hs
    by_cases h1 : settings.openRouter.enabled = false ∨ settings.openRouter.apiKey = ""
    · simpa [generateTextSync, h1] using hs
    · by_cases h2 : jsOrString options.model settings.openRouter.model = ""
      · simpa [generateTextSync, h1, h2] using hs
      · have hE : settings.openRouter.enabled = true := by
          cases hb : settings.openRouter.enabled
          · exact absurd (Or.inl hb) h1
          · rfl
        have hK : settings.openRouter.apiKey ≠ "" := fun hk => h1 (Or.inr hk)
        rw [generateTextSync_pass settings startTime generatedId logId prompt options st
          hE hK h2]
        intro k
        by_cases hk : k = jsOrString options.requestId generatedId
        · subst hk
          simp [mapGet_set_self]
        · simp [mapGet_set_ne _ _ _ _ hk, hs k]
  · intro requestId logId startTime now response st hs
    exact cleanupRequest_sync requestId st hs
  · intro requestId logId startTime now e st hs
    exact cleanupRequest_sync requestId st hs
  · intro requestId now st hs
    cases h1 : mapGet st.abortSubjects requestId with
    | none =>
      cases h2 : mapGet st.requestMetadata requestId <;>
        simpa [abortRequest, h1, h2] using hs
    | some u =>
      cases h2 : mapGet st.requestMetadata requestId with
      | none => simpa [abortRequest, h1, h2] using hs
      | some m => simpa [abortRequest, h1, h2] using cleanupRequest_sync requestId st hs
  · intro requestId st hs
    exact cleanupRequest_sync requestId st hs
  · intro requestId logId startTime now response st
    exact ⟨cleanupRequest_abortSubjects_self requestId st,
      cleanupRequest_requestMetadata_self requestId st⟩
  · intro requestId logId startTime now e st
    exact ⟨cleanupRequest_abortSubjects_self requestId st,
      cleanupRequest_requestMetadata_self requestId st⟩
  · intro requestId now st m h1 h2
    have hstate : (abortRequest requestId now st).1 = cleanupRequest requestId st := by
      simp [abortRequest, h1, h2]
    rw [hstate]
    exact ⟨cleanupRequest_abortSubjects_self requestId st,
      cleanupRequest_requestMetadata_self requestId st⟩

/-- C1 witness: admission over empty, in-sync registries preserves the
invariant, and a completed abort leaves neither registry holding the id. -/
theorem c1_registries_in_sync_witness :
    RegistriesInSync
      (generateTextSync sampleSettings 0 "gen" "L" "p" {} ⟨[], []⟩).2.1 ∧
    (mapGet (abortRequest "rid" 5 sampleExec.st).1.abortSubjects "rid" = none ∧
      mapGet (abortRequest "rid" 5 sampleExec.st).1.requestMetadata "rid" = none) :=
  ⟨c1_registries_in_sync.1 sampleSettings 0 "gen" "L" "p" {} ⟨[], []⟩ (fun _ => rfl),
   c1_registries_in_sync.2.2.2.2.2.2.2 "rid" 5 sampleExec.st
     { logId := "L", startTime := 0 } rfl rfl⟩

/-- C2: when `abortRequest` fires on an admitted request before the transport
call settles, the later settlement (success or error alike) adds no audit
call: the subscription was completed by `takeUntil`, so `logSuccess` and
`logError` never run for that request and the whole trace contains no
settlement log. -/
theorem c2_abort_before_settle_no_settle_log
    (settings : Settings) (startTime t1 t2 : Nat)
    (generatedId logId prompt : String) (options : GenerateOptions) (st : ApiState)
    (outcome : TransportOutcome) (r : AdmitResult) (ex : RequestExec)
    (h : admission settings startTime generatedId logId prompt options st = some (r, ex)) :
    (stepSettle r.requestId r.logId startTime t2 outcome
        (stepAbort r.requestId t1 ex)).events.filter isSettleLog = [] := by
  by_cases h1 : settings.openRouter.enabled = false ∨ settings.openRouter.apiKey = ""
  · exfalso
    simp [admission, generateTextSync, h1] at h
  · by_cases h2 : jsOrString options.model settings.openRouter.model = ""
    · exfalso
      simp [admission, generateTextSync, h1, h2] at h
    · have hE : settings.openRouter.enabled = true := by
        cases hb : settings.openRouter.enabled
        · exact absurd (Or.inl hb) h1
        · rfl
      have hK : settings.openRouter.apiKey ≠ "" := fun hk => h1 (Or.inr hk)
      simp only [admission,
        generateTextSync_pass settings startTime generatedId logId prompt options st
          hE hK h2, Option.some.injEq, Prod.mk.injEq] at h
      obtain ⟨hA, hEx⟩ := h
      subst hA
      subst hEx
      cases outcome <;>
        simp [stepAbort, mapGet_set_self, stepSettle, isSettleLog]

/-- C2 witness: the admitted request `"rid"` is aborted at time 5; the
transport success arriving at time 9 leaves no settlement log in the trace. -/
theorem c2_abort_before_settle_no_settle_log_witness :
    (stepSettle sampleAdmit.requestId sampleAdmit.logId 0 9
        (TransportOutcome.success sampleResponse)
        (stepAbort sampleAdmit.requestId 5 sampleExec)).events.filter isSettleLog = [] :=
  c2_abort_before_settle_no_settle_log sampleSettings 0 5 9 "gen" "L" "p"
    { requestId := some "rid" } ⟨[], []⟩ (TransportOutcome.success sampleResponse)
    sampleAdmit sampleExec rfl

end OpenRouterApi
